import Mathlib

/-!
Shallow embedding of the Iterative Tool-Augmented Query Resolution Engine
from `AI_XL_Agent/sql_tables_execution.py`.

Modelling conventions:
* A pandas `DataFrame` is a triple of column names, row-index labels and
  string-valued cells (every formatting path in the source applies `str`
  to cells before use, so cells are kept as strings).
* The SQLite store behind `execute_sql_query` is a function from the query
  text to `Except`: `Except.error` models `cursor.execute` raising, and
  `Except.ok (cols, rows)` models a successful fetch (`cursor.description`
  column names paired with `fetchall` rows).
* The reasoning engine behind `openai_client.chat.completions.create` in
  `generate_sql_query_multi_tables` is a function from the iteration count
  (1-based) to its response for that iteration.  The Python loop is
  deterministic given the engine and the store, so along any one execution
  the engine's replies are a function of the iteration number.
* Monetary cost is modelled in `ℚ`; the Python float literals `2.5` and
  `83.52` become the exact rationals `5/2` and `8352/100`.  Wall-clock
  timing (`time.time()`) is not modelled.
-/

namespace AIXL

/-- Token usage reported by the reasoning engine for one request
(`response.usage` in the source). -/
structure Usage where
  completion_tokens : Nat
  prompt_tokens : Nat
  deriving Repr, DecidableEq

/-- One tool invocation produced by the reasoning engine: the parsed
`tool_call.function.arguments` JSON object.  `stop` is `none` when the
`stop` key is absent from the arguments. -/
structure ToolCall where
  sql_query : String
  query_explanation : String
  stop : Option Bool
  deriving Repr, DecidableEq

/-- One reasoning-engine response for one iteration of the loop:
its tool calls and its token usage. -/
structure EngineResponse where
  tool_calls : List ToolCall
  usage : Usage
  deriving Repr, DecidableEq

/-- The relational store behind `execute_sql_query`: query text to either a
raised execution error or the fetched (column names, rows). -/
abbrev Store := String → Except String (List String × List (List String))

/-- A pandas DataFrame: column names, row-index labels, and rows of
string-valued cells. -/
structure DataFrame where
  columns : List String
  index : List String
  rows : List (List String)
  deriving Repr, DecidableEq

/-- `pd.DataFrame()`: the empty frame returned on an execution error. -/
def emptyDataFrame : DataFrame := ⟨[], [], []⟩

/-- `df.empty` in pandas: true when any axis has length 0. -/
def DataFrame.isEmptyDf (df : DataFrame) : Bool :=
  df.rows.isEmpty || df.columns.isEmpty

/-- `execute_sql_query` (source lines 38-92): executes the query against the
store; on success builds a DataFrame with the fetched columns and rows and a
default range index; on any raised error returns an empty DataFrame.  The
`query_explanation` and `stop` parameters are accepted but unused by the
body, exactly as in the source. -/
def execute_sql_query (store : Store) (sql_query : String)
    (query_explanation : String) (stop : Bool) : DataFrame :=
  match store sql_query with
  | Except.ok (cols, rows) =>
      ⟨cols, (List.range rows.length).map toString, rows⟩
  | Except.error _ => emptyDataFrame

/-- `format_dataframe` (source lines 480-516): renders the frame as
delimited text.  Empty column sets short-circuit to `""`; otherwise an
optional header row, then one line per row with an optional index prefix. -/
def format_dataframe (data : DataFrame) (row_separator : String)
    (col_separator : String) (add_headers : Bool) (add_indices : Bool) :
    String :=
  if data.columns.length = 0 then ""
  else
    let headerRows : List String :=
      if add_headers then
        [(if add_indices then col_separator else "") ++
          String.intercalate col_separator data.columns]
      else []
    let bodyRows : List String :=
      (data.index.zip data.rows).map fun p =>
        (if add_indices then p.1 ++ col_separator else "") ++
          String.intercalate col_separator p.2
    String.intercalate row_separator (headerRows ++ bodyRows)

/-- `result.to_json(orient="records")`: the machine-form rendering stored in
`iteration_results_db`. -/
def df_to_json (df : DataFrame) : String :=
  "[" ++ String.intercalate ","
    (df.rows.map fun row =>
      "\x7b" ++ String.intercalate ","
        ((df.columns.zip row).map fun p =>
          "\"" ++ p.1 ++ "\":\"" ++ p.2 ++ "\"") ++ "\x7d") ++ "]"

/-- One query→result record of a transcript (`iteration_results` /
`iteration_results_db` entries). -/
structure Entry where
  sql_query : String
  result : String
  deriving Repr, DecidableEq

/-- The `stop` argument actually passed to `execute_sql_query` via
`eval(f"{function_name}(**{arguments})")`: the parsed value when the key is
present, the declared default `False` otherwise. -/
def tool_stop_arg (tc : ToolCall) : Bool := tc.stop.getD false

/-- The machine-form entry built for one tool call (source lines 435, 441-444):
the query paired with the `to_json(orient="records")` rendering. -/
def exec_entry_db (store : Store) (tc : ToolCall) : Entry :=
  let result := execute_sql_query store tc.sql_query tc.query_explanation
    (tool_stop_arg tc)
  ⟨tc.sql_query, df_to_json result⟩

/-- The display-form entry built for one tool call (source lines 436, 445-448):
the query paired with `format_dataframe(result)` when the frame is non-empty,
`""` otherwise. -/
def exec_entry (store : Store) (tc : ToolCall) : Entry :=
  let result := execute_sql_query store tc.sql_query tc.query_explanation
    (tool_stop_arg tc)
  ⟨tc.sql_query,
    if result.isEmptyDf then ""
    else format_dataframe result "\n" "\t" true false⟩

/-- The per-invocation stop signal (source line 451):
`arguments.get('stop') == True`. -/
def stop_signal (tc : ToolCall) : Bool := tc.stop == some true

/-- The round-level stop condition (source line 458):
`any(iteration_stop_signals)`. -/
def roundStops (r : EngineResponse) : Bool := r.tool_calls.any stop_signal

/-- Per-round cost (source line 471):
`((completion/1e6)*10 + (prompt/1e6)*2.5)*83.52`, in exact rationals. -/
def round_cost (u : Usage) : ℚ :=
  ((u.completion_tokens : ℚ) / 1000000 * 10 +
    (u.prompt_tokens : ℚ) / 1000000 * (5 / 2)) * (8352 / 100)

/-- The mutable state of the `for count in range(1, 6)` loop in
`generate_sql_query_multi_tables`: the two transcripts, the stop flag, and
the `cost` variable (reassigned, not accumulated, each iteration). -/
structure LoopState where
  all_results_db : List (List Entry)
  all_results : List (List Entry)
  stop : Bool
  cost : ℚ
  deriving Repr, DecidableEq

/-- One iteration body of the loop (source lines 396-471): execute every
tool call of the round, append the completed round to both transcripts, OR
the stop signals into the stop flag, and overwrite `cost` with this round's
cost. -/
def loop_step (store : Store) (r : EngineResponse) (s : LoopState) :
    LoopState :=
  { all_results_db := s.all_results_db ++ [r.tool_calls.map (exec_entry_db store)],
    all_results := s.all_results ++ [r.tool_calls.map (exec_entry store)],
    stop := s.stop || roundStops r,
    cost := round_cost r.usage }

/-- The loop over the remaining iteration counts: `if stop: break` is
checked at the top of each iteration, then the body runs. -/
def runIterations (engine : Nat → EngineResponse) (store : Store) :
    List Nat → LoopState → LoopState
  | [], s => s
  | c :: cs, s =>
      if s.stop then s
      else runIterations engine store cs (loop_step store (engine c) s)

/-- The loop's initial state: empty transcripts, `stop = False`.  (In the
source `cost` is unbound before the first iteration; the loop always runs
at least one iteration, so the initial value below is never observed.) -/
def init_state : LoopState := ⟨[], [], false, 0⟩

/-- `generate_sql_query_multi_tables` (source lines 342-476), restricted to
the loop-visible state: runs `range(1, 6)` and returns the final transcripts
and the final value of `cost`.  Wall-clock timing is not modelled. -/
def generate_sql_query_multi_tables (engine : Nat → EngineResponse)
    (store : Store) : LoopState :=
  runIterations engine store [1, 2, 3, 4, 5] init_state

/-- One row of the `market_tables` metadata table behind `get_table_info`. -/
structure MetaRow where
  market : String
  table_name : String
  table_schema : String
  table_description : String
  deriving Repr, DecidableEq

/-- `get_table_info` (source lines 120-147), restricted to the catalog's key
set: the table names recorded in the metadata store for the given market.
(The source returns a dict keyed by these names; only the key set matters
for catalog membership.) -/
def get_table_info (metadata : List MetaRow) (market : String) :
    List String :=
  (metadata.filter fun r => r.market == market).map MetaRow.table_name

/-- One SQL example from the YAML library (`get_relevant_examples` input):
question, query, and the optional `relevant_tables` key. -/
structure SqlExample where
  question : String
  query : String
  relevant_tables : Option (List String)
  deriving Repr, DecidableEq

/-- An example with the `relevant_tables` field removed, as returned by
`get_relevant_examples`. -/
structure FilteredExample where
  question : String
  query : String
  deriving Repr, DecidableEq

/-- Drops the `relevant_tables` key from an example
(`{k: v for k, v in example.items() if k != "relevant_tables"}`). -/
def strip_relevant_tables (ex : SqlExample) : FilteredExample :=
  ⟨ex.question, ex.query⟩

/-- `get_relevant_examples` (source lines 236-270), after the YAML file has
been parsed into `examples`: keeps an example when
`target_tables_set >= set(example.get("relevant_tables", []))`, i.e. every
required table is among the target tables, and strips the
`relevant_tables` field. -/
def get_relevant_examples (examples : List SqlExample)
    (target_relevant_tables : List String) : List FilteredExample :=
  (examples.filter fun ex =>
      (ex.relevant_tables.getD []).all fun t => t ∈ target_relevant_tables).map
    strip_relevant_tables

/-- The table list used downstream by `sql_pipeline` (source lines 538-545):
when the `rel_tables` argument is falsy (empty), the list parsed from the
relevance answer via `json.loads(answer).get("relevant_tables", [])`;
otherwise the argument itself.  No filtering against the catalog occurs. -/
def resolve_rel_tables (rel_tables : List String)
    (answer_relevant_tables : Option (List String)) : List String :=
  if rel_tables.isEmpty then answer_relevant_tables.getD [] else rel_tables

/-- Outcome of one `sql_pipeline` call, with the diagnostic-log contents
made explicit.  `ok` additionally records the table list that was handed to
`generate_sql_query_multi_tables`.  `sentinel` is the handler's
`return None, 0` after appending a log record.  `raised` is an exception
propagating out of `sql_pipeline` to its caller. -/
inductive PipelineOutcome where
  | ok (rel_tables : List String) (all_results_db all_results : List (List Entry))
      (cost : ℚ) (log : List String)
  | sentinel (log : List String)
  | raised (exn : String) (log : List String)
  deriving Repr, DecidableEq

/-- The `except` block of `sql_pipeline` (source lines 553-566).  Its first
statement builds an f-string that reads the local variable `all_results`;
that variable is bound only by the success-path assignment on line 550, so
it is `none` whenever the `try` block raised.  Reading an unbound local
raises `UnboundLocalError`, which propagates out of the handler before any
log record is written; only when `all_results` is bound does the handler
append its record and return the `(None, 0)` sentinel. -/
def pipeline_handler (user_input : String)
    (all_results : Option (List (List Entry))) (log : List String) :
    PipelineOutcome :=
  match all_results with
  | none => PipelineOutcome.raised "UnboundLocalError: all_results" log
  | some r =>
      PipelineOutcome.sentinel
        (log ++ ["User Input: " ++ user_input ++ "\nGenerated Query and Results: "
          ++ toString (repr r) ++ "\nError: <traceback>\n"])

/-- `sql_pipeline` (source lines 519-572).  `fetch_answer` models the
relevance-selection step (`get_relevant_tables` followed by `json.loads`):
`Except.error` is a hard failure raised there (e.g. the metadata store
being unreachable), `Except.ok a` the parsed answer object's
`relevant_tables` field (`none` when absent).  On the success path the
resolved table list is the one handed to `generate_sql_query_multi_tables`
(where it parameterizes the prompt, which is not modelled); it is recorded
in the `ok` outcome.  On any exception the handler runs with `all_results`
still unbound. -/
def sql_pipeline (fetch_answer : Except String (Option (List String)))
    (engine : Nat → EngineResponse) (store : Store)
    (rel_tables : List String) (user_input : String) (log : List String) :
    PipelineOutcome :=
  match (if rel_tables.isEmpty then fetch_answer
         else Except.ok (some rel_tables)) with
  | Except.error _ => pipeline_handler user_input none log
  | Except.ok a =>
      let tables := resolve_rel_tables rel_tables a
      let final := generate_sql_query_multi_tables engine store
      PipelineOutcome.ok tables final.all_results_db final.all_results
        final.cost log

/-- The round appended to `all_results` when iteration `i` runs. -/
def round_entries (engine : Nat → EngineResponse) (store : Store) (i : Nat) :
    List Entry :=
  (engine i).tool_calls.map (exec_entry store)

/-! General lemmas about the loop. -/

theorem runIterations_stopped (engine : Nat → EngineResponse) (store : Store)
    (cs : List Nat) (s : LoopState) (h : s.stop = true) :
    runIterations engine store cs s = s := by
  cases cs <;> simp [runIterations, h]

theorem runIterations_append (engine : Nat → EngineResponse) (store : Store)
    (cs1 cs2 : List Nat) (s : LoopState) :
    runIterations engine store (cs1 ++ cs2) s =
      runIterations engine store cs2 (runIterations engine store cs1 s) := by
  induction cs1 generalizing s with
  | nil => simp [runIterations]
  | cons c cs ih =>
    cases h : s.stop
    · simp only [List.cons_append, runIterations, h]
      exact ih _
    · simp [runIterations, h, runIterations_stopped]

theorem loop_step_length (store : Store) (r : EngineResponse) (s : LoopState) :
    (loop_step store r s).all_results.length = s.all_results.length + 1 := by
  simp [loop_step]

theorem runIterations_length_le (engine : Nat → EngineResponse) (store : Store)
    (cs : List Nat) :
    ∀ s : LoopState, (runIterations engine store cs s).all_results.length ≤
      s.all_results.length + cs.length := by
  induction cs with
  | nil => intro s; simp [runIterations]
  | cons c cs ih =>
    intro s
    cases h : s.stop
    · simp only [runIterations, h, Bool.false_eq_true, if_false]
      have h1 := ih (loop_step store (engine c) s)
      have h2 := loop_step_length store (engine c) s
      simp only [List.length_cons]
      omega
    · simp [runIterations, h]

theorem runIterations_length_mono (engine : Nat → EngineResponse)
    (store : Store) (cs : List Nat) :
    ∀ s : LoopState,
      s.all_results.length ≤ (runIterations engine store cs s).all_results.length := by
  induction cs with
  | nil => intro s; simp [runIterations]
  | cons c cs ih =>
    intro s
    cases h : s.stop
    · simp only [runIterations, h, Bool.false_eq_true, if_false]
      have h1 := ih (loop_step store (engine c) s)
      have h2 := loop_step_length store (engine c) s
      omega
    · simp [runIterations, h]

theorem runIterations_progress (engine : Nat → EngineResponse) (store : Store)
    (c : Nat) (cs : List Nat) (s : LoopState) (h : s.stop = false) :
    s.all_results.length + 1 ≤
      (runIterations engine store (c :: cs) s).all_results.length := by
  have h1 := runIterations_length_mono engine store cs
    (loop_step store (engine c) s)
  have h2 := loop_step_length store (engine c) s
  simp only [runIterations, h, Bool.false_eq_true, if_false]
  omega

theorem runIterations_no_stop (engine : Nat → EngineResponse) (store : Store) :
    ∀ (n a : Nat) (s : LoopState), s.stop = false →
    (∀ j, a ≤ j → j < a + n → roundStops (engine j) = false) →
    (runIterations engine store (List.range' a n) s).all_results =
        s.all_results ++ (List.range' a n).map (round_entries engine store) ∧
      (runIterations engine store (List.range' a n) s).stop = false := by
  intro n
  induction n with
  | zero => intro a s hs _; simp [runIterations, hs]
  | succ n ih =>
    intro a s hs hall
    have ha : roundStops (engine a) = false := hall a (Nat.le_refl a) (by omega)
    have hstep : (loop_step store (engine a) s).stop = false := by
      simp [loop_step, hs, ha]
    have ih' := ih (a + 1) (loop_step store (engine a) s) hstep
      (fun j h1 h2 => hall j (by omega) (by omega))
    rw [List.range'_succ]
    simp only [runIterations, hs, Bool.false_eq_true, if_false]
    refine ⟨?_, ih'.2⟩
    rw [ih'.1]
    simp [loop_step, round_entries]

theorem runIterations_first_stop (engine : Nat → EngineResponse)
    (store : Store) :
    ∀ (n a k : Nat) (s : LoopState), s.stop = false →
    a ≤ k → k < a + n →
    roundStops (engine k) = true →
    (∀ j, a ≤ j → j < k → roundStops (engine j) = false) →
    (runIterations engine store (List.range' a n) s).all_results =
        s.all_results ++
          (List.range' a (k + 1 - a)).map (round_entries engine store) ∧
      (runIterations engine store (List.range' a n) s).stop = true := by
  intro n
  induction n with
  | zero => intro a k s _ h1 h2 _ _; omega
  | succ n ih =>
    intro a k s hs hak hkn hk hprev
    rw [List.range'_succ]
    simp only [runIterations, hs, Bool.false_eq_true, if_false]
    rcases Nat.eq_or_lt_of_le hak with heq | hlt
    · subst heq
      have hstep : (loop_step store (engine a) s).stop = true := by
        simp [loop_step, hs, hk]
      rw [runIterations_stopped engine store _ _ hstep]
      constructor
      · have : a + 1 - a = 1 := by omega
        rw [this, List.range'_one]
        simp [loop_step, round_entries]
      · exact hstep
    · have ha : roundStops (engine a) = false := hprev a (Nat.le_refl a) hlt
      have hstep : (loop_step store (engine a) s).stop = false := by
        simp [loop_step, hs, ha]
      have ih' := ih (a + 1) k (loop_step store (engine a) s) hstep
        (by omega) (by omega) hk (fun j hj1 hj2 => hprev j (by omega) hj2)
      refine ⟨?_, ih'.2⟩
      rw [ih'.1]
      have harith : k + 1 - a = (k + 1 - (a + 1)) + 1 := by omega
      rw [harith, List.range'_succ, List.map_cons]
      simp [loop_step, round_entries]

/-- The table list recorded in an `ok` outcome: the list `sql_pipeline`
handed to `generate_sql_query_multi_tables`. -/
def PipelineOutcome.selected : PipelineOutcome → Option (List String)
  | .ok t _ _ _ _ => some t
  | _ => none

/-- A reasoning engine whose single invocation per round never sets a stop
flag. -/
def engineNoStop : Nat → EngineResponse := fun _ =>
  ⟨[⟨"SELECT \"Year\" FROM \"IncomeStmt\"", "look up the years", none⟩],
    ⟨120, 800⟩⟩

/-- A store on which every query raises an execution error. -/
def storeErr : Store := fun _ => Except.error "no such table: users"

/-- A store on which every query succeeds with a two-row result. -/
def storeOk : Store := fun _ =>
  Except.ok (["Year", "Value"], [["2021", "192"], ["2022", "210"]])

/-- A metadata store whose catalog for market `"US"` is `IncomeStmt` only. -/
def metadataC1 : List MetaRow :=
  [⟨"US", "IncomeStmt", "LineItem TEXT, Year TEXT, Value REAL",
    "Income statement line items"⟩]

/-- C1 (counterexample).  When the reasoning engine answers with the table
name `"Ghost"`, which is not in the catalog that `get_table_info` returns
for market `"US"`, `sql_pipeline` hands `["Ghost"]` to the downstream
generation step unchanged: no returned name is dropped, so the handed-down
set is not a subset of the catalog. -/
theorem relevance_filter_counterexample :
    (sql_pipeline (Except.ok (some ["Ghost"])) engineNoStop storeErr []
        "What is EBITDA in 2021 and 2022?" []).selected = some ["Ghost"] ∧
      ¬ "Ghost" ∈ get_table_info metadataC1 "US" := by
  constructor
  · rfl
  · decide

/-- C1 (amended).  The Table Relevance Selector performs no post-filtering:
for every parsed reasoning-engine answer, the table list `sql_pipeline`
hands downstream is exactly `json.loads(answer).get("relevant_tables", [])`,
independent of any catalog. -/
theorem relevance_no_filter (answer : Option (List String))
    (engine : Nat → EngineResponse) (store : Store) (q : String)
    (log : List String) :
    (sql_pipeline (Except.ok answer) engine store [] q log).selected =
      some (answer.getD []) := rfl

/-- The failing engine behaviour for the cost claim: round 1 reports one
million completion tokens, round 2 reports zero tokens and stops. -/
def engineC2 : Nat → EngineResponse := fun n =>
  if n = 1 then
    ⟨[⟨"SELECT \"Value\" FROM \"IncomeStmt\"", "first pass", some false⟩],
      ⟨1000000, 0⟩⟩
  else
    ⟨[⟨"SELECT \"Year\" FROM \"IncomeStmt\"", "second pass", some true⟩],
      ⟨0, 0⟩⟩

/-- C2 (code bug, evaluated at the failing input).  The loop body reassigns
`cost` instead of accumulating it (`cost = ...`, unlike the `+=` used for
the two time counters).  With `engineC2` the state after round 1 carries
cost `4176/5` (= 835.2), the loop runs 2 rounds, yet the returned cost is
`0`: it decreased across rounds and is not the sum of the per-round
costs. -/
theorem cost_not_accumulated :
    (runIterations engineC2 storeOk [1] init_state).cost = 4176 / 5 ∧
    (generate_sql_query_multi_tables engineC2 storeOk).all_results.length = 2 ∧
    (generate_sql_query_multi_tables engineC2 storeOk).cost = 0 ∧
    (generate_sql_query_multi_tables engineC2 storeOk).cost <
      (runIterations engineC2 storeOk [1] init_state).cost ∧
    (generate_sql_query_multi_tables engineC2 storeOk).cost ≠
      round_cost (engineC2 1).usage + round_cost (engineC2 2).usage := by
  refine ⟨?_, ?_, ?_, ?_, ?_⟩ <;>
    norm_num [generate_sql_query_multi_tables, runIterations, loop_step,
      init_state, engineC2, round_cost, roundStops, stop_signal]

/-- C3 (code bug, evaluated at the failing input).  With the `rel_tables`
argument empty and the metadata store unreachable, the `try` block raises
before `all_results` is ever assigned; the `except` handler's first
statement reads that unbound local and therefore raises
`UnboundLocalError`: the diagnostic log gains no record (it is unchanged,
`[]`), no sentinel is returned, and an exception propagates to the
caller. -/
theorem error_recorder_crashes :
    sql_pipeline (Except.error "unable to open database file") engineNoStop
        storeErr [] "What is EBITDA in 2021 and 2022?" [] =
      PipelineOutcome.raised "UnboundLocalError: all_results" [] := rfl

/-- C8.  Whenever the column set is empty, `format_dataframe` returns the
empty string, for every row separator, column separator, header flag and
index flag. -/
theorem format_dataframe_empty_columns (data : DataFrame)
    (row_sep col_sep : String) (add_headers add_indices : Bool)
    (hcols : data.columns = []) :
    format_dataframe data row_sep col_sep add_headers add_indices = "" := by
  simp [format_dataframe, hcols]

/-- Witness for C8: a frame with one row but no columns renders to `""`
even with headers and indices requested and unusual separators. -/
theorem format_dataframe_empty_columns_witness :
    format_dataframe ⟨[], ["0"], [["stray"]]⟩ " | " ";" true true = "" :=
  format_dataframe_empty_columns ⟨[], ["0"], [["stray"]]⟩ " | " ";" true true
    rfl

/-- C9.  `execute_sql_query` ignores its `query_explanation` and `stop`
arguments: against the same store and query text the result is identical
for every choice of the two. -/
theorem execute_sql_query_ignores_explanation_stop (store : Store)
    (sql_query e1 e2 : String) (s1 s2 : Bool) :
    execute_sql_query store sql_query e1 s1 =
      execute_sql_query store sql_query e2 s2 := rfl

/-- The loop's control flow (stop flag and round count) never reads the
query results: it is the same for any two stores. -/
theorem runIterations_store_indep (engine : Nat → EngineResponse)
    (store1 store2 : Store) :
    ∀ (cs : List Nat) (s1 s2 : LoopState), s1.stop = s2.stop →
    s1.all_results.length = s2.all_results.length →
    (runIterations engine store1 cs s1).stop =
        (runIterations engine store2 cs s2).stop ∧
      (runIterations engine store1 cs s1).all_results.length =
        (runIterations engine store2 cs s2).all_results.length := by
  intro cs
  induction cs with
  | nil => intro s1 s2 h1 h2; simp only [runIterations]; exact ⟨h1, h2⟩
  | cons c cs ih =>
    intro s1 s2 h1 h2
    cases hs : s1.stop
    · have hs2 : s2.stop = false := by rw [← h1, hs]
      simp only [runIterations, hs, hs2, Bool.false_eq_true, if_false]
      exact ih _ _ (by simp [loop_step, hs, hs2]) (by simp [loop_step, h2])
    · have hs2 : s2.stop = true := by rw [← h1, hs]
      rw [runIterations_stopped engine store1 _ _ hs,
        runIterations_stopped engine store2 _ _ hs2]
      exact ⟨h1, h2⟩

/-- C6.  On a query whose execution raises, `execute_sql_query` returns the
empty DataFrame instead of propagating; moreover the session's round count
is the same as over any other store, so execution failures never end the
session early. -/
theorem execute_sql_query_soft_failure (store : Store)
    (sql_query query_explanation : String) (stop : Bool) (err : String)
    (h : store sql_query = Except.error err) :
    execute_sql_query store sql_query query_explanation stop =
        emptyDataFrame ∧
      ∀ (engine : Nat → EngineResponse) (store2 : Store),
        (generate_sql_query_multi_tables engine store).all_results.length =
          (generate_sql_query_multi_tables engine store2).all_results.length := by
  constructor
  · simp [execute_sql_query, h]
  · intro engine store2
    exact (runIterations_store_indep engine store store2 [1, 2, 3, 4, 5]
      init_state init_state rfl rfl).2

/-- Witness for C6: on the always-raising store the executor returns the
empty frame, and the session with `engineNoStop` runs as many rounds over
the failing store as over the succeeding one. -/
theorem execute_sql_query_soft_failure_witness :
    execute_sql_query storeErr "SELECT * FROM users" "retrieve users" false =
        emptyDataFrame ∧
      (generate_sql_query_multi_tables engineNoStop storeErr).all_results.length =
        (generate_sql_query_multi_tables engineNoStop storeOk).all_results.length :=
  ⟨(execute_sql_query_soft_failure storeErr "SELECT * FROM users"
      "retrieve users" false "no such table: users" rfl).1,
    (execute_sql_query_soft_failure storeErr "SELECT * FROM users"
      "retrieve users" false "no such table: users" rfl).2 engineNoStop storeOk⟩

/-- C4.  The loop never executes more than 5 rounds, and when no invocation
of any round sets a stop flag it runs exactly the 5 capped rounds and then
halts. -/
theorem loop_round_cap (engine : Nat → EngineResponse) (store : Store) :
    (generate_sql_query_multi_tables engine store).all_results.length ≤ 5 ∧
      ((∀ n, roundStops (engine n) = false) →
        (generate_sql_query_multi_tables engine store).all_results.length = 5) := by
  constructor
  · have h := runIterations_length_le engine store [1, 2, 3, 4, 5] init_state
    simpa [generate_sql_query_multi_tables, init_state] using h
  · intro hns
    have h5 : List.range' 1 5 = [1, 2, 3, 4, 5] := by decide
    have h := (runIterations_no_stop engine store 5 1 init_state rfl
      (fun j _ _ => hns j)).1
    rw [h5] at h
    simp only [generate_sql_query_multi_tables]
    rw [h]
    simp [init_state, h5]

/-- Witness for C4: with an engine that never stops, the session runs
exactly 5 rounds (and in particular at most 5). -/
theorem loop_round_cap_witness :
    (generate_sql_query_multi_tables engineNoStop storeErr).all_results.length ≤ 5 ∧
      (generate_sql_query_multi_tables engineNoStop storeErr).all_results.length = 5 :=
  ⟨(loop_round_cap engineNoStop storeErr).1,
    (loop_round_cap engineNoStop storeErr).2 (fun _ => rfl)⟩

/-- C5.  Suppose no round before round `k` carries a stop flag (so the
session reaches round `k`).  Then the session ends with exactly `k` rounds
iff some invocation of round `k` sets `stop=true` (OR of the per-invocation
flags) or `k` is the hard cap 5; and when round `k` stops, every invocation
of every round up to and including `k` is still executed and recorded, in
order, and no further round follows. -/
theorem loop_stop_semantics (engine : Nat → EngineResponse) (store : Store)
    (k : Nat) (hk1 : 1 ≤ k) (hk5 : k ≤ 5)
    (hprev : ∀ j, 1 ≤ j → j < k → roundStops (engine j) = false) :
    ((generate_sql_query_multi_tables engine store).all_results.length = k ↔
      (roundStops (engine k) = true ∨ k = 5)) ∧
    (roundStops (engine k) = true →
      (generate_sql_query_multi_tables engine store).all_results =
        (List.range' 1 k).map (round_entries engine store)) := by
  have h5 : ([1, 2, 3, 4, 5] : List Nat) = List.range' 1 5 := by decide
  have hgen : generate_sql_query_multi_tables engine store =
      runIterations engine store (List.range' 1 5) init_state := by
    rw [generate_sql_query_multi_tables, h5]
  have hstoplen : roundStops (engine k) = true →
      (generate_sql_query_multi_tables engine store).all_results =
        (List.range' 1 k).map (round_entries engine store) := by
    intro hk
    have h := (runIterations_first_stop engine store 5 1 k init_state rfl hk1
      (by omega) hk hprev).1
    rw [hgen, h]
    simp [init_state]
  have hcontinue : roundStops (engine k) = false → k < 5 →
      k + 1 ≤ (generate_sql_query_multi_tables engine store).all_results.length := by
    intro hk hklt
    have hall : ∀ j, 1 ≤ j → j < 1 + k → roundStops (engine j) = false := by
      intro j h1 h2
      rcases Nat.lt_or_ge j k with hj | hj
      · exact hprev j h1 hj
      · have : j = k := by omega
        rw [this]; exact hk
    have hns := runIterations_no_stop engine store k 1 init_state rfl hall
    have hsplit : List.range' 1 k ++ List.range' (1 + k) (5 - k) =
        List.range' 1 5 := by
      rw [List.range'_append_1]; congr 1; omega
    have happ := runIterations_append engine store (List.range' 1 k)
      (List.range' (1 + k) (5 - k)) init_state
    rw [hsplit] at happ
    have hlen : (runIterations engine store (List.range' 1 k)
        init_state).all_results.length = k := by
      rw [hns.1]; simp [init_state]
    have hrest : 5 - k = (5 - k - 1) + 1 := by omega
    rw [hgen, happ, hrest, List.range'_succ]
    have hprog := runIterations_progress engine store (1 + k)
      (List.range' (1 + k + 1) (5 - k - 1))
      (runIterations engine store (List.range' 1 k) init_state) hns.2
    omega
  refine ⟨⟨?_, ?_⟩, hstoplen⟩
  · intro hlen
    by_cases hk5eq : k = 5
    · right; exact hk5eq
    · left
      cases hk : roundStops (engine k)
      · exfalso
        have := hcontinue hk (by omega)
        omega
      · rfl
  · intro h
    rcases h with hk | hk5eq
    · have h := hstoplen hk
      rw [h]
      simp
    · subst hk5eq
      cases hk : roundStops (engine 5)
      · have hall : ∀ j, 1 ≤ j → j < 1 + 5 → roundStops (engine j) = false := by
          intro j h1 h2
          rcases Nat.lt_or_ge j 5 with hj | hj
          · exact hprev j h1 hj
          · have : j = 5 := by omega
            rw [this]; exact hk
        have hns := runIterations_no_stop engine store 5 1 init_state rfl hall
        rw [hgen, hns.1]
        simp [init_state]
      · have h := hstoplen hk
        rw [h]
        simp

/-- The reply used to witness the stop semantics: one round with the
invocation stop flags `[false, true, false]`. -/
def engineC5 : Nat → EngineResponse := fun _ =>
  ⟨[⟨"SELECT \"LineItem\" FROM \"IncomeStmt\"", "scan items", some false⟩,
    ⟨"SELECT \"Value\" FROM \"IncomeStmt\"", "read values", some true⟩,
    ⟨"SELECT \"Year\" FROM \"IncomeStmt\"", "read years", some false⟩],
    ⟨60, 400⟩⟩

/-- Witness for C5: a round whose invocations carry stop flags
`[false, true, false]` ends the session after that round (OR of flags),
with all three invocations recorded. -/
theorem loop_stop_semantics_witness :
    ((generate_sql_query_multi_tables engineC5 storeOk).all_results.length = 1 ↔
      (roundStops (engineC5 1) = true ∨ 1 = 5)) ∧
    (roundStops (engineC5 1) = true →
      (generate_sql_query_multi_tables engineC5 storeOk).all_results =
        (List.range' 1 1).map (round_entries engineC5 storeOk)) :=
  loop_stop_semantics engineC5 storeOk 1 (Nat.le_refl 1) (by omega)
    (fun j h1 h2 => absurd (Nat.lt_of_le_of_lt h1 h2) (by omega))

/-- The boolean check the source performs
(`target_tables_set >= example_tables_set`, i.e. "every required table is a
target table") agrees with the subset predicate of the spec. -/
theorem all_mem_eq_decide_subset (l target : List String) :
    (l.all fun t => t ∈ target) = decide (l ⊆ target) := by
  induction l with
  | nil => simp
  | cons x xs ih => simp [List.cons_subset, ih]

/-- C7.  The example filter returns exactly the examples whose
required-table set is a subset of the selected tables, with the
`relevant_tables` field stripped; an example with an empty (or absent)
required-table set is always among the results. -/
theorem get_relevant_examples_subset_filter (examples : List SqlExample)
    (target : List String) :
    get_relevant_examples examples target =
        (examples.filter fun ex =>
          decide ((ex.relevant_tables.getD []) ⊆ target)).map
          strip_relevant_tables ∧
      ∀ ex ∈ examples, ex.relevant_tables.getD [] = [] →
        strip_relevant_tables ex ∈ get_relevant_examples examples target := by
  have heq : get_relevant_examples examples target =
      (examples.filter fun ex =>
        decide ((ex.relevant_tables.getD []) ⊆ target)).map
        strip_relevant_tables := by
    unfold get_relevant_examples
    congr 1
    apply List.filter_congr
    intro ex _
    exact all_mem_eq_decide_subset _ _
  refine ⟨heq, ?_⟩
  intro ex hex hempty
  rw [heq]
  apply List.mem_map_of_mem
  apply List.mem_filter.mpr
  exact ⟨hex, by simp [hempty]⟩

/-- A small example library: one example needing no tables, one needing
`CashFlow`, one with no `relevant_tables` key. -/
def examplesC7 : List SqlExample :=
  [⟨"What is EBITDA in 2021?", "SELECT \"Value\" FROM \"IncomeStmt\"",
      some []⟩,
    ⟨"What is CapEx in 2021?", "SELECT \"Value\" FROM \"CashFlow\"",
      some ["CashFlow"]⟩,
    ⟨"List the years.", "SELECT DISTINCT \"Year\" FROM \"IncomeStmt\"",
      none⟩]

/-- Witness for C7: the example with an empty required-table set is
returned (stripped) even when only `IncomeStmt` is selected. -/
theorem get_relevant_examples_subset_filter_witness :
    strip_relevant_tables
        ⟨"What is EBITDA in 2021?", "SELECT \"Value\" FROM \"IncomeStmt\"",
          some []⟩ ∈
      get_relevant_examples examplesC7 ["IncomeStmt"] :=
  (get_relevant_examples_subset_filter examplesC7 ["IncomeStmt"]).2
    ⟨"What is EBITDA in 2021?", "SELECT \"Value\" FROM \"IncomeStmt\"",
      some []⟩
    (List.mem_cons_self _ _) rfl

/-- Corresponding entries of the two transcripts record the same query. -/
def EntryQuerySync (e1 e2 : Entry) : Prop := e1.sql_query = e2.sql_query

theorem forall₂_map_pair {α β : Type} (R : β → β → Prop) (f g : α → β)
    (h : ∀ x, R (f x) (g x)) :
    ∀ l : List α, List.Forall₂ R (l.map f) (l.map g)
  | [] => List.Forall₂.nil
  | x :: xs => List.Forall₂.cons (h x) (forall₂_map_pair R f g h xs)

theorem runIterations_sync (engine : Nat → EngineResponse) (store : Store) :
    ∀ (cs : List Nat) (s : LoopState),
    List.Forall₂ (List.Forall₂ EntryQuerySync) s.all_results_db s.all_results →
    List.Forall₂ (List.Forall₂ EntryQuerySync)
      (runIterations engine store cs s).all_results_db
      (runIterations engine store cs s).all_results := by
  intro cs
  induction cs with
  | nil => intro s h; simpa [runIterations] using h
  | cons c cs ih =>
    intro s h
    cases hs : s.stop
    · simp only [runIterations, hs, Bool.false_eq_true, if_false]
      apply ih
      simp only [loop_step]
      exact List.rel_append h
        (List.Forall₂.cons
          (forall₂_map_pair EntryQuerySync (exec_entry_db store)
            (exec_entry store) (fun _ => rfl) (engine c).tool_calls)
          List.Forall₂.nil)
    · rw [runIterations_stopped _ _ _ _ hs]; exact h

/-- C10.  The machine-form and display-form transcripts have the same
number of rounds, corresponding rounds have the same number of entries,
and corresponding entries record the identical `sql_query`. -/
theorem transcripts_in_sync (engine : Nat → EngineResponse) (store : Store) :
    List.Forall₂ (List.Forall₂ EntryQuerySync)
        (generate_sql_query_multi_tables engine store).all_results_db
        (generate_sql_query_multi_tables engine store).all_results ∧
      (generate_sql_query_multi_tables engine store).all_results_db.length =
        (generate_sql_query_multi_tables engine store).all_results.length := by
  have h := runIterations_sync engine store [1, 2, 3, 4, 5] init_state
    List.Forall₂.nil
  exact ⟨h, h.length_eq⟩

end AIXL
